import Mathlib

/-!
Verification of `scripts/build/generate_devtools_ui_strings.js`.

The script is embedded shallowly:
* `parseArguments`, `jsIndexOf`, `jsGet` model the CLI argument handling,
  including JavaScript's `indexOf = -1` and out-of-bounds-`undefined`
  semantics.
* `outputHeaderFileContent`, `outputCCFileContent`, `mappingsStr` and
  `generateDevToolsLocalizedStrings` model the artifact generation.
* `runMain` models the control flow of `main`: the upstream parse call, the
  three diff reports, the build gate, and the two artifact writes, with the
  collaborator behaviour (parse outcome, report strings, write success)
  supplied as an explicit environment `Collab`.
* `sanitizeStringIntoCppFormat` lives in
  `scripts/localization/utils/localization_utils.js`, which is not part of
  the sources under verification; it is modelled from the spec, together
  with a C++ string-literal reader `cppParseLiteral` used to state the
  round-trip property.
-/

namespace DevToolsUIStrings

/-- JavaScript `Array.prototype.indexOf`: index of the first occurrence of
`flag`, or `-1` when absent. -/
def jsIndexOf : List String → String → Int
  | [], _ => -1
  | a :: rest, flag =>
    if a = flag then 0
    else if jsIndexOf rest flag = -1 then -1 else jsIndexOf rest flag + 1

/-- JavaScript array indexing `args[i]`: `undefined` (here `none`) for a
negative or out-of-range index. -/
def jsGet (args : List String) (i : Int) : Option String :=
  if i < 0 then none else args[i.toNat]?

/-- The `Arguments` class of the script.  Each field holds the value read
from `args[index + 1]`, which in JavaScript may be `undefined`. -/
structure Arguments where
  rootGenDir : Option String
  outputHeaderFilePath : Option String
  outputCCFilePath : Option String
deriving DecidableEq

/-- `parseArguments` from the script: looks up each flag with `indexOf` and
takes the following element. -/
def parseArguments (args : List String) : Arguments :=
  let rootGenDirIndex := jsIndexOf args "--root_gen_dir"
  let outputHeaderIndex := jsIndexOf args "--output_header"
  let outputCCIndex := jsIndexOf args "--output_cc"
  ⟨jsGet args (rootGenDirIndex + 1), jsGet args (outputHeaderIndex + 1),
    jsGet args (outputCCIndex + 1)⟩

/-- An entry of the frontend string map: the script only reads the `.string`
field of each mapped value. -/
structure FrontendString where
  string : String
deriving DecidableEq

/-- The insertion-ordered map `frontendStrings` (`idsKey ↦ frontendString`),
modelled as an association list in iteration order. -/
abbrev FrontendStringMap := List (String × FrontendString)

/-- Modelled from the spec: `sanitizeStringIntoCppFormat` is defined in
`scripts/localization/utils/localization_utils.js`, which is outside the
sources under verification.  Per the spec it escapes backslashes, quotes and
control characters so that the result can be embedded in a double-quoted
C++ literal.  Escape of a single character. -/
def escapeChar (c : Char) : List Char :=
  if c = '\\' then ['\\', '\\']
  else if c = '"' then ['\\', '"']
  else if c = '\n' then ['\\', 'n']
  else if c = '\r' then ['\\', 'r']
  else if c = '\t' then ['\\', 't']
  else [c]

/-- Escape of a character list, character by character. -/
def escapeList : List Char → List Char
  | [] => []
  | c :: cs => escapeChar c ++ escapeList cs

/-- Modelled from the spec: the string sanitizer
`sanitizeStringIntoCppFormat` of `localization_utils.js` (not under the
verified sources), which escapes a string for embedding in a double-quoted
C++ literal. -/
def sanitizeStringIntoCppFormat (s : String) : String :=
  ⟨escapeList s.data⟩

/-- Reading one escape character of a C++ string literal. -/
def unescapeChar (d : Char) : Option Char :=
  if d = '\\' then some '\\'
  else if d = '"' then some '"'
  else if d = 'n' then some '\n'
  else if d = 'r' then some '\r'
  else if d = 't' then some '\t'
  else none

/-- C++ string-literal rules for the body of a double-quoted literal: a
backslash starts an escape sequence (failing on an unknown escape or a
trailing backslash), an unescaped quote is not part of the body, any other
character stands for itself. -/
def unescapeList : List Char → Option (List Char)
  | [] => some []
  | ['\\'] => none
  | '\\' :: d :: rest2 =>
    match unescapeChar d with
    | some e => (unescapeList rest2).map (e :: ·)
    | none => none
  | c :: rest => if c = '"' then none else (unescapeList rest).map (c :: ·)

/-- Parsing the body of a double-quoted C++ string literal back into the
string it denotes. -/
def cppParseLiteral (s : String) : Option String :=
  (unescapeList s.data).map fun l => ⟨l⟩

/-- The fixed do-not-edit banner `doNotEditStr` of the script. -/
def doNotEditStr : String :=
  "// This file is automatically generated by //third_party/devtools-frontend/src/scripts/build/generate_devtools_ui_strings.js. Do not edit."

/-- The text of the header template between the banner and the interpolated
`frontendStrings.size`. -/
def headerTemplatePre : String :=
  "\n\n#ifndef CHROME_BROWSER_UI_WEBUI_DEVTOOLS_UI_STRINGS_H_\n#define CHROME_BROWSER_UI_WEBUI_DEVTOOLS_UI_STRINGS_H_\n\n#include \"chrome/browser/ui/webui/localized_string.h\"\n\nnamespace devtools \x7b\n\nconstexpr unsigned int kLocalizedStringsSize = "

/-- The text of the header template after the interpolated size. -/
def headerTemplatePost : String :=
  ";\nextern const LocalizedString kLocalizedStrings[kLocalizedStringsSize];\n\n\x7d // namespace devtools\n\n#endif // CHROME_BROWSER_UI_WEBUI_DEVTOOLS_UI_STRINGS_H_\n"

/-- `outputHeaderFileContent`: the declaration artifact, a template
interpolating `frontendStrings.size`. -/
def outputHeaderFileContent (frontendStrings : FrontendStringMap) : String :=
  doNotEditStr ++ headerTemplatePre ++ toString frontendStrings.length ++ headerTemplatePost

/-- One line of the generated array:
`  {"<sanitized string>", <idsKey>},\n`. -/
def mappingEntry (idsKey : String) (frontendString : FrontendString) : String :=
  "  \x7b\"" ++ sanitizeStringIntoCppFormat frontendString.string ++ "\", " ++ idsKey ++ "\x7d,\n"

/-- `mappingsStr`: the script starts from `''` and appends one line per
entry with `frontendStrings.forEach`. -/
def mappingsStr (frontendStrings : FrontendStringMap) : String :=
  frontendStrings.foldl (fun acc p => acc ++ mappingEntry p.1 p.2) ""

/-- The text of the definition template between the banner and the
interpolated `args.outputHeaderFilePath`. -/
def ccTemplatePre : String := "\n\n#include \""

/-- The text of the definition template between the interpolated include
path and the interpolated `mappingsStr`. -/
def ccTemplateMid : String :=
  "\"\n\n#include \"third_party/devtools-frontend/src/front_end/langpacks/devtools_ui_strings.h\"\n\nnamespace devtools \x7b\n\nconst LocalizedString kLocalizedStrings[] = \x7b\n"

/-- The text of the definition template after the interpolated
`mappingsStr`. -/
def ccTemplatePost : String := "\x7d;\n\n\x7d // namespace devtools\n"

/-- `outputCCFileContent`: the definition artifact, a template interpolating
the relative header path and `mappingsStr`. -/
def outputCCFileContent (outputHeaderFilePath : String) (frontendStrings : FrontendStringMap) : String :=
  doNotEditStr ++ ccTemplatePre ++ outputHeaderFilePath ++ ccTemplateMid ++
    mappingsStr frontendStrings ++ ccTemplatePost

/-- `generateDevToolsLocalizedStrings` up to the point where the two write
promises are issued: the pair of artifact contents.  `path.join` throws a
`TypeError` when an argument is `undefined`, and it is evaluated before
either template, so the function produces no content when a CLI value is
missing (`none`). -/
def generateDevToolsLocalizedStrings (args : Arguments) (frontendStrings : FrontendStringMap) :
    Option (String × String) :=
  match args.rootGenDir, args.outputHeaderFilePath, args.outputCCFilePath with
  | some _, some outputHeaderFilePath, some _ =>
    some (outputHeaderFileContent frontendStrings,
      outputCCFileContent outputHeaderFilePath frontendStrings)
  | _, _, _ => none

/-- Behaviour of the external collaborators during one run: the outcome of
`parseLocalizableResourceMaps`, the three report strings (empty string =
empty diff set, matching JavaScript falsiness), and whether each of the two
file writes succeeds. -/
structure Collab where
  parseResult : Except String FrontendStringMap
  toAddError : String
  toModifyError : String
  toRemoveError : String
  headerWriteOk : Bool
  ccWriteOk : Bool

/-- The remediation pointer appended to a non-empty diagnostic (`error +=
'\n...'` in `main`). -/
def autofixNote : String :=
  "\nThe errors are potentially fixable with `node third_party/devtools-frontend/src/scripts/check_localizable_resources.js --autofix`"

/-- The `error` accumulator of `main`: each non-empty report followed by a
newline, in report order. -/
def buildError (toAddError toModifyError toRemoveError : String) : String :=
  (if toAddError ≠ "" then toAddError ++ "\n" else "") ++
    (if toModifyError ≠ "" then toModifyError ++ "\n" else "") ++
    (if toRemoveError ≠ "" then toRemoveError ++ "\n" else "")

/-- The diagnostic printed by `main`: when `error` is non-empty, the
remediation note is appended and the result logged; otherwise nothing. -/
def gateDiagnostic (toAddError toModifyError toRemoveError : String) : Option String :=
  if buildError toAddError toModifyError toRemoveError ≠ "" then
    some (buildError toAddError toModifyError toRemoveError ++ autofixNote)
  else none

/-- Observable outcome of one run of `main`. -/
structure MainResult where
  exitCode : Nat
  diagPrinted : Option String
  reportsRead : Bool
  generationAttempted : Bool
  genFailurePrinted : Bool
  headerWritten : Option String
  ccWritten : Option String
deriving DecidableEq

/-- The control flow of `main`: parse (exit 1 on failure before the reports
are read), read and log the three diff reports, gate on `toAddError ||
toModifyError`, then generate and issue both writes; `Promise.all` fails if
either write fails, in which case the error is logged and the process exits
1, but the other write still completes. -/
def runMain (c : Collab) (argv : List String) : MainResult :=
  let args := parseArguments argv
  match c.parseResult with
  | .error _ => ⟨1, none, false, false, false, none, none⟩
  | .ok frontendStrings =>
    let diag := gateDiagnostic c.toAddError c.toModifyError c.toRemoveError
    if c.toAddError ≠ "" ∨ c.toModifyError ≠ "" then
      ⟨1, diag, true, false, false, none, none⟩
    else
      match generateDevToolsLocalizedStrings args frontendStrings with
      | none => ⟨1, diag, true, true, true, none, none⟩
      | some (headerContent, ccContent) =>
        let hW := if c.headerWriteOk then some headerContent else none
        let cW := if c.ccWriteOk then some ccContent else none
        if c.headerWriteOk && c.ccWriteOk then
          ⟨0, diag, true, true, false, hW, cW⟩
        else
          ⟨1, diag, true, true, true, hW, cW⟩

/-- Concatenation of a list of strings, in order. -/
def concatList : List String → String
  | [] => ""
  | s :: rest => s ++ concatList rest

theorem str_append_ne_empty_left (a b : String) (h : a ≠ "") : a ++ b ≠ "" := by
  intro hab
  apply h
  have hd := congrArg String.data hab
  simp only [String.data_append] at hd
  exact String.ext (List.append_eq_nil.mp hd).1

theorem str_append_ne_empty_right (a b : String) (h : b ≠ "") : a ++ b ≠ "" := by
  intro hab
  apply h
  have hd := congrArg String.data hab
  simp only [String.data_append] at hd
  exact String.ext (List.append_eq_nil.mp hd).2

theorem newline_ne_empty : ("\n" : String) ≠ "" := by decide

/-- C7: for identical arguments and an identical frontend string map, the
generation step produces byte-identical declaration and definition artifact
contents. -/
theorem generate_deterministic (args args' : Arguments) (fs fs' : FrontendStringMap)
    (ha : args = args') (hf : fs = fs') :
    generateDevToolsLocalizedStrings args fs = generateDevToolsLocalizedStrings args' fs' := by
  rw [ha, hf]

theorem generate_deterministic_witness :
    generateDevToolsLocalizedStrings ⟨some "g", some "h.h", some "c.cc"⟩ [("IDS_A", ⟨"Hello"⟩)]
      = generateDevToolsLocalizedStrings ⟨some "g", some "h.h", some "c.cc"⟩
          [("IDS_A", ⟨"Hello"⟩)] :=
  generate_deterministic _ _ _ _ rfl rfl

/-- C2: whenever the toAdd or toModify report is non-empty, the run exits
with status 1 without reaching generation, and neither artifact is
written. -/
theorem blocking_diffs_block (c : Collab) (argv : List String)
    (h : c.toAddError ≠ "" ∨ c.toModifyError ≠ "") :
    (runMain c argv).exitCode = 1 ∧ (runMain c argv).generationAttempted = false ∧
      (runMain c argv).headerWritten = none ∧ (runMain c argv).ccWritten = none := by
  cases hp : c.parseResult with
  | error e => simp [runMain, hp]
  | ok fs => simp [runMain, hp, h]

theorem blocking_diffs_block_witness :
    (runMain ⟨.ok [], "add report", "", "", true, true⟩ []).exitCode = 1 ∧
      (runMain ⟨.ok [], "add report", "", "", true, true⟩ []).generationAttempted = false ∧
      (runMain ⟨.ok [], "add report", "", "", true, true⟩ []).headerWritten = none ∧
      (runMain ⟨.ok [], "add report", "", "", true, true⟩ []).ccWritten = none :=
  blocking_diffs_block _ [] (Or.inl (by decide))

/-- C6: if the upstream parse step fails, the run exits with status 1
immediately: the diff reports are not read, generation is not attempted and
no artifact is written. -/
theorem parse_failure_aborts (c : Collab) (argv : List String) (e : String)
    (h : c.parseResult = .error e) :
    (runMain c argv).exitCode = 1 ∧ (runMain c argv).reportsRead = false ∧
      (runMain c argv).generationAttempted = false ∧
      (runMain c argv).headerWritten = none ∧ (runMain c argv).ccWritten = none := by
  simp [runMain, h]

theorem parse_failure_aborts_witness :
    (runMain ⟨.error "parse failed", "", "", "", true, true⟩ []).exitCode = 1 ∧
      (runMain ⟨.error "parse failed", "", "", "", true, true⟩ []).reportsRead = false ∧
      (runMain ⟨.error "parse failed", "", "", "", true, true⟩ []).generationAttempted = false ∧
      (runMain ⟨.error "parse failed", "", "", "", true, true⟩ []).headerWritten = none ∧
      (runMain ⟨.error "parse failed", "", "", "", true, true⟩ []).ccWritten = none :=
  parse_failure_aborts _ [] "parse failed" rfl

/-- C1: when the upstream parse succeeds, the run exits with status 1
before generation exactly when the toAdd report or the toModify report is
non-empty; a non-empty toRemove report alone never blocks, and generation
proceeds in that case. -/
theorem gate_blocks_iff (c : Collab) (argv : List String) (fs : FrontendStringMap)
    (h : c.parseResult = .ok fs) :
    ((runMain c argv).exitCode = 1 ∧ (runMain c argv).generationAttempted = false)
      ↔ (c.toAddError ≠ "" ∨ c.toModifyError ≠ "") := by
  by_cases hg : c.toAddError ≠ "" ∨ c.toModifyError ≠ ""
  · simp [runMain, h, hg]
  · cases hgen : generateDevToolsLocalizedStrings (parseArguments argv) fs with
    | none => simp [runMain, h, hg, hgen]
    | some p =>
      obtain ⟨headerContent, ccContent⟩ := p
      by_cases hw : c.headerWriteOk && c.ccWriteOk
      · simp [runMain, h, hg, hgen, hw]
      · simp [runMain, h, hg, hgen, hw]

theorem gate_blocks_iff_witness :
    ((runMain ⟨.ok [], "", "", "stale entry", true, true⟩ []).exitCode = 1 ∧
        (runMain ⟨.ok [], "", "", "stale entry", true, true⟩ []).generationAttempted = false)
      ↔ (("" : String) ≠ "" ∨ ("" : String) ≠ "") :=
  gate_blocks_iff _ [] [] rfl

set_option maxRecDepth 100000 in
theorem headerTemplatePre_split :
    doNotEditStr ++ headerTemplatePre
      = ((doNotEditStr ++ "\n\n") ++
          "#ifndef CHROME_BROWSER_UI_WEBUI_DEVTOOLS_UI_STRINGS_H_\n#define CHROME_BROWSER_UI_WEBUI_DEVTOOLS_UI_STRINGS_H_") ++
          "\n\n#include \"chrome/browser/ui/webui/localized_string.h\"\n\nnamespace devtools \x7b\n\nconstexpr unsigned int kLocalizedStringsSize = " := by
  decide

set_option maxRecDepth 100000 in
theorem headerTemplatePost_split :
    headerTemplatePost
      = (";\n" ++ "extern const LocalizedString kLocalizedStrings[kLocalizedStringsSize];") ++
          "\n\n\x7d // namespace devtools\n\n#endif // CHROME_BROWSER_UI_WEBUI_DEVTOOLS_UI_STRINGS_H_\n" := by
  decide

/-- C4: the declaration artifact is the fixed do-not-edit banner, an
include guard, a compile-time constant whose value is the number of entries
of the map, and an external declaration of the pair array sized by that
constant. -/
theorem header_artifact_structure (fs : FrontendStringMap) :
    outputHeaderFileContent fs
        = doNotEditStr ++ headerTemplatePre ++ toString fs.length ++ headerTemplatePost
      ∧ (∃ rest, outputHeaderFileContent fs = doNotEditStr ++ rest)
      ∧ (∃ u v, outputHeaderFileContent fs
          = u ++ "#ifndef CHROME_BROWSER_UI_WEBUI_DEVTOOLS_UI_STRINGS_H_\n#define CHROME_BROWSER_UI_WEBUI_DEVTOOLS_UI_STRINGS_H_" ++ v)
      ∧ (∃ u v, outputHeaderFileContent fs
          = u ++ "extern const LocalizedString kLocalizedStrings[kLocalizedStringsSize];" ++ v) := by
  refine ⟨rfl, ⟨headerTemplatePre ++ toString fs.length ++ headerTemplatePost, ?_⟩, ?_, ?_⟩
  · simp [outputHeaderFileContent, String.append_assoc]
  · refine ⟨doNotEditStr ++ "\n\n",
      "\n\n#include \"chrome/browser/ui/webui/localized_string.h\"\n\nnamespace devtools \x7b\n\nconstexpr unsigned int kLocalizedStringsSize = " ++
        (toString fs.length ++ headerTemplatePost), ?_⟩
    calc outputHeaderFileContent fs
        = (doNotEditStr ++ headerTemplatePre) ++ (toString fs.length ++ headerTemplatePost) := by
          simp [outputHeaderFileContent, String.append_assoc]
      _ = (((doNotEditStr ++ "\n\n") ++
              "#ifndef CHROME_BROWSER_UI_WEBUI_DEVTOOLS_UI_STRINGS_H_\n#define CHROME_BROWSER_UI_WEBUI_DEVTOOLS_UI_STRINGS_H_") ++
              "\n\n#include \"chrome/browser/ui/webui/localized_string.h\"\n\nnamespace devtools \x7b\n\nconstexpr unsigned int kLocalizedStringsSize = ") ++
            (toString fs.length ++ headerTemplatePost) := by
          rw [headerTemplatePre_split]
      _ = (doNotEditStr ++ "\n\n") ++
            "#ifndef CHROME_BROWSER_UI_WEBUI_DEVTOOLS_UI_STRINGS_H_\n#define CHROME_BROWSER_UI_WEBUI_DEVTOOLS_UI_STRINGS_H_" ++
            ("\n\n#include \"chrome/browser/ui/webui/localized_string.h\"\n\nnamespace devtools \x7b\n\nconstexpr unsigned int kLocalizedStringsSize = " ++
              (toString fs.length ++ headerTemplatePost)) :=
          String.append_assoc _ _ _
  · refine ⟨doNotEditStr ++ headerTemplatePre ++ toString fs.length ++ ";\n",
      "\n\n\x7d // namespace devtools\n\n#endif // CHROME_BROWSER_UI_WEBUI_DEVTOOLS_UI_STRINGS_H_\n", ?_⟩
    calc outputHeaderFileContent fs
        = ((doNotEditStr ++ headerTemplatePre) ++ toString fs.length) ++
            ((";\n" ++ "extern const LocalizedString kLocalizedStrings[kLocalizedStringsSize];") ++
              "\n\n\x7d // namespace devtools\n\n#endif // CHROME_BROWSER_UI_WEBUI_DEVTOOLS_UI_STRINGS_H_\n") := by
          rw [outputHeaderFileContent, headerTemplatePost_split]
      _ = doNotEditStr ++ headerTemplatePre ++ toString fs.length ++ ";\n" ++
            "extern const LocalizedString kLocalizedStrings[kLocalizedStringsSize];" ++
            "\n\n\x7d // namespace devtools\n\n#endif // CHROME_BROWSER_UI_WEBUI_DEVTOOLS_UI_STRINGS_H_\n" := by
          simp [String.append_assoc]

theorem mappingsStr_foldl (fs : FrontendStringMap) (acc : String) :
    fs.foldl (fun a p => a ++ mappingEntry p.1 p.2) acc
      = acc ++ concatList (fs.map fun p => mappingEntry p.1 p.2) := by
  induction fs generalizing acc with
  | nil => simp [concatList]
  | cons p rest ih => simp [concatList, List.foldl_cons, ih, String.append_assoc]

/-- C3: the definition artifact consists of a fixed prefix (banner and
includes), then exactly one array entry per mapping item, concatenated in
the iteration order of the map, each of the form
`  {"<sanitize(text)>", <idKey>},`, then a fixed suffix. -/
theorem cc_entries_ordered (outputHeaderFilePath : String) (fs : FrontendStringMap) :
    outputCCFileContent outputHeaderFilePath fs
      = doNotEditStr ++ ccTemplatePre ++ outputHeaderFilePath ++ ccTemplateMid ++
          concatList (fs.map fun p =>
            "  \x7b\"" ++ sanitizeStringIntoCppFormat p.2.string ++ "\", " ++ p.1 ++ "\x7d,\n") ++
          ccTemplatePost := by
  rw [outputCCFileContent, mappingsStr, mappingsStr_foldl]
  simp [mappingEntry]

/-- C5: the run exits with status 0 only when both artifact writes
completed; if generation is reached and either write fails, the failure is
logged and the run exits with status 1. -/
theorem write_failure_fails (c : Collab) (argv : List String) :
    ((runMain c argv).exitCode = 0 →
        (runMain c argv).headerWritten ≠ none ∧ (runMain c argv).ccWritten ≠ none)
      ∧ ((runMain c argv).generationAttempted = true →
          (c.headerWriteOk = false ∨ c.ccWriteOk = false) →
          (runMain c argv).exitCode = 1 ∧ (runMain c argv).genFailurePrinted = true) := by
  cases hp : c.parseResult with
  | error e => simp [runMain, hp]
  | ok fs =>
    by_cases hg : c.toAddError ≠ "" ∨ c.toModifyError ≠ ""
    · simp [runMain, hp, hg]
    · cases hgen : generateDevToolsLocalizedStrings (parseArguments argv) fs with
      | none => simp [runMain, hp, hg, hgen]
      | some p =>
        obtain ⟨headerContent, ccContent⟩ := p
        by_cases hw : c.headerWriteOk && c.ccWriteOk
        · obtain ⟨hw1, hw2⟩ := Bool.and_eq_true_iff.mp hw
          simp [runMain, hp, hg, hgen, hw, hw1, hw2]
        · simp [runMain, hp, hg, hgen, hw]

theorem write_failure_fails_witness :
    (runMain ⟨.ok [("IDS_A", ⟨"Hello"⟩)], "", "", "", true, false⟩
        ["--root_gen_dir", "g", "--output_header", "h.h", "--output_cc", "c.cc"]).exitCode = 1 ∧
      (runMain ⟨.ok [("IDS_A", ⟨"Hello"⟩)], "", "", "", true, false⟩
        ["--root_gen_dir", "g", "--output_header", "h.h", "--output_cc", "c.cc"]).genFailurePrinted = true :=
  (write_failure_fails _ _).2 (by decide) (Or.inr rfl)

theorem diagPrinted_eq (c : Collab) (argv : List String) (fs : FrontendStringMap)
    (h : c.parseResult = .ok fs) :
    (runMain c argv).diagPrinted
      = gateDiagnostic c.toAddError c.toModifyError c.toRemoveError := by
  by_cases hg : c.toAddError ≠ "" ∨ c.toModifyError ≠ ""
  · simp [runMain, h, hg]
  · cases hgen : generateDevToolsLocalizedStrings (parseArguments argv) fs with
    | none => simp [runMain, h, hg, hgen]
    | some p =>
      obtain ⟨headerContent, ccContent⟩ := p
      by_cases hw : c.headerWriteOk && c.ccWriteOk
      · simp [runMain, h, hg, hgen, hw]
      · simp [runMain, h, hg, hgen, hw]

theorem buildError_ne_empty (ta tm tr : String) (h : ta ≠ "" ∨ tm ≠ "" ∨ tr ≠ "") :
    buildError ta tm tr ≠ "" := by
  unfold buildError
  rcases h with h | h | h
  · rw [if_pos h]
    exact str_append_ne_empty_left _ _ (str_append_ne_empty_left _ _
      (str_append_ne_empty_left _ _ h))
  · rw [if_pos h]
    exact str_append_ne_empty_left _ _ (str_append_ne_empty_right _ _
      (str_append_ne_empty_left _ _ h))
  · rw [if_pos h]
    exact str_append_ne_empty_right _ _ (str_append_ne_empty_left _ _ h)

theorem gateDiagnostic_some (ta tm tr : String) (h : ta ≠ "" ∨ tm ≠ "" ∨ tr ≠ "") :
    gateDiagnostic ta tm tr = some (buildError ta tm tr ++ autofixNote) := by
  unfold gateDiagnostic
  rw [if_pos (buildError_ne_empty _ _ _ h)]

theorem buildError_note_contains_add (ta tm tr : String) (h : ta ≠ "") :
    ∃ u v, buildError ta tm tr ++ autofixNote = u ++ (ta ++ v) := by
  refine ⟨"", "\n" ++ ((if tm ≠ "" then tm ++ "\n" else "") ++
    ((if tr ≠ "" then tr ++ "\n" else "") ++ autofixNote)), ?_⟩
  unfold buildError
  rw [if_pos h]
  simp [String.append_assoc]

theorem buildError_note_contains_modify (ta tm tr : String) (h : tm ≠ "") :
    ∃ u v, buildError ta tm tr ++ autofixNote = u ++ (tm ++ v) := by
  refine ⟨(if ta ≠ "" then ta ++ "\n" else ""),
    "\n" ++ ((if tr ≠ "" then tr ++ "\n" else "") ++ autofixNote), ?_⟩
  unfold buildError
  rw [if_pos h]
  simp [String.append_assoc]

theorem buildError_note_contains_remove (ta tm tr : String) (h : tr ≠ "") :
    ∃ u v, buildError ta tm tr ++ autofixNote = u ++ (tr ++ v) := by
  refine ⟨(if ta ≠ "" then ta ++ "\n" else "") ++ (if tm ≠ "" then tm ++ "\n" else ""),
    "\n" ++ autofixNote, ?_⟩
  unfold buildError
  rw [if_pos h]
  simp [String.append_assoc]

/-- C8: when the upstream parse succeeds, a diagnostic is printed exactly
when some diff report is non-empty; the diagnostic contains every non-empty
report (also a toRemove report alone, even though the build then proceeds)
and ends with the one-line pointer to the self-fix tool; no diagnostic is
printed when all three reports are empty. -/
theorem diagnostics_reported (c : Collab) (argv : List String) (fs : FrontendStringMap)
    (h : c.parseResult = .ok fs) :
    ((c.toAddError = "" ∧ c.toModifyError = "" ∧ c.toRemoveError = "") →
        (runMain c argv).diagPrinted = none)
      ∧ ((c.toAddError ≠ "" ∨ c.toModifyError ≠ "" ∨ c.toRemoveError ≠ "") →
          ∃ d, (runMain c argv).diagPrinted = some d
            ∧ (c.toAddError ≠ "" → ∃ u v, d = u ++ (c.toAddError ++ v))
            ∧ (c.toModifyError ≠ "" → ∃ u v, d = u ++ (c.toModifyError ++ v))
            ∧ (c.toRemoveError ≠ "" → ∃ u v, d = u ++ (c.toRemoveError ++ v))
            ∧ ∃ u, d = u ++ autofixNote) := by
  have hdiag := diagPrinted_eq c argv fs h
  constructor
  · rintro ⟨h1, h2, h3⟩
    rw [hdiag]
    simp [gateDiagnostic, buildError, h1, h2, h3]
  · intro hne
    refine ⟨buildError c.toAddError c.toModifyError c.toRemoveError ++ autofixNote,
      ?_, ?_, ?_, ?_,
      ⟨buildError c.toAddError c.toModifyError c.toRemoveError, rfl⟩⟩
    · rw [hdiag]
      exact gateDiagnostic_some _ _ _ hne
    · intro hta
      exact buildError_note_contains_add _ _ _ hta
    · intro htm
      exact buildError_note_contains_modify _ _ _ htm
    · intro htr
      exact buildError_note_contains_remove _ _ _ htr

theorem diagnostics_reported_witness :
    (runMain ⟨.ok [], "", "", "", true, true⟩ []).diagPrinted = none :=
  (diagnostics_reported _ [] [] rfl).1 ⟨rfl, rfl, rfl⟩

theorem escape_roundtrip (cs : List Char) : unescapeList (escapeList cs) = some cs := by
  induction cs with
  | nil => rfl
  | cons c cs ih =>
    by_cases h1 : c = '\\'
    · subst h1; simp [escapeList, escapeChar, unescapeList, unescapeChar, ih]
    · by_cases h2 : c = '"'
      · subst h2; simp [escapeList, escapeChar, unescapeList, unescapeChar, ih]
      · by_cases h3 : c = '\n'
        · subst h3; simp [escapeList, escapeChar, unescapeList, unescapeChar, ih]
        · by_cases h4 : c = '\r'
          · subst h4; simp [escapeList, escapeChar, unescapeList, unescapeChar, ih]
          · by_cases h5 : c = '\t'
            · subst h5; simp [escapeList, escapeChar, unescapeList, unescapeChar, ih]
            · simp [escapeList, escapeChar, unescapeList, h1, h2, h3, h4, h5, ih]

/-- C9: for every string, re-parsing the sanitized text under the C++
string-literal rules yields exactly the original string: the sanitizer
composed with literal re-parsing is the identity. -/
theorem sanitize_roundtrip (s : String) :
    cppParseLiteral (sanitizeStringIntoCppFormat s) = some s := by
  obtain ⟨d⟩ := s
  simp [cppParseLiteral, sanitizeStringIntoCppFormat, escape_roundtrip]

theorem jsIndexOf_of_not_mem (args : List String) (flag : String) (h : flag ∉ args) :
    jsIndexOf args flag = -1 := by
  induction args with
  | nil => rfl
  | cons a rest ih =>
    rw [List.mem_cons, not_or] at h
    obtain ⟨h1, h2⟩ := h
    have ha : ¬ a = flag := fun hh => h1 hh.symm
    simp [jsIndexOf, ha, ih h2]

theorem jsIndexOf_append_first (l1 rest : List String) (flag : String) (h : flag ∉ l1) :
    jsIndexOf (l1 ++ flag :: rest) flag = (l1.length : Int) := by
  induction l1 with
  | nil => simp [jsIndexOf]
  | cons a l ih =>
    rw [List.mem_cons, not_or] at h
    obtain ⟨h1, h2⟩ := h
    have ha : ¬ a = flag := fun hh => h1 hh.symm
    have hr := ih h2
    have hne : jsIndexOf (l ++ flag :: rest) flag ≠ -1 := by rw [hr]; omega
    simp [jsIndexOf, ha, hne, hr]

theorem jsGet_after (l1 rest : List String) (flag : String) (h : flag ∉ l1) :
    jsGet (l1 ++ flag :: rest) (jsIndexOf (l1 ++ flag :: rest) flag + 1) = rest.head? := by
  rw [jsIndexOf_append_first _ _ _ h]
  unfold jsGet
  rw [if_neg (by omega : ¬ ((l1.length : Int) + 1 < 0))]
  have ht : ((l1.length : Int) + 1).toNat = l1.length + 1 := by omega
  rw [ht, List.getElem?_append_right (by omega)]
  have hi : l1.length + 1 - l1.length = 1 := by omega
  rw [hi]
  simp [List.head?_eq_getElem?]

theorem jsGet_absent (args : List String) (flag : String) (h : flag ∉ args) :
    jsGet args (jsIndexOf args flag + 1) = args[0]? := by
  rw [jsIndexOf_of_not_mem _ _ h]
  norm_num [jsGet]

/-- C10: `parseArguments` is total and never reports a usage error: each
field is the element following the first occurrence of its flag (JavaScript
`undefined`, i.e. `none`, when the flag is last); when the flag is absent,
`indexOf` returns -1 and the field is the element at index 0. -/
theorem parseArguments_total_spec (args l1 rest : List String) :
    (("--root_gen_dir" ∉ args → (parseArguments args).rootGenDir = args[0]?)
        ∧ (args = l1 ++ "--root_gen_dir" :: rest → "--root_gen_dir" ∉ l1 →
            (parseArguments args).rootGenDir = rest.head?))
      ∧ (("--output_header" ∉ args → (parseArguments args).outputHeaderFilePath = args[0]?)
        ∧ (args = l1 ++ "--output_header" :: rest → "--output_header" ∉ l1 →
            (parseArguments args).outputHeaderFilePath = rest.head?))
      ∧ (("--output_cc" ∉ args → (parseArguments args).outputCCFilePath = args[0]?)
        ∧ (args = l1 ++ "--output_cc" :: rest → "--output_cc" ∉ l1 →
            (parseArguments args).outputCCFilePath = rest.head?)) := by
  refine ⟨⟨?_, ?_⟩, ⟨?_, ?_⟩, ⟨?_, ?_⟩⟩
  · intro h
    exact jsGet_absent _ _ h
  · intro he h
    subst he
    exact jsGet_after _ _ _ h
  · intro h
    exact jsGet_absent _ _ h
  · intro he h
    subst he
    exact jsGet_after _ _ _ h
  · intro h
    exact jsGet_absent _ _ h
  · intro he h
    subst he
    exact jsGet_after _ _ _ h

theorem parseArguments_total_spec_witness :
    (parseArguments ["--root_gen_dir", "gen", "--output_header", "h.h",
        "--output_cc", "c.cc"]).rootGenDir = some "gen" := by
  have := (parseArguments_total_spec
    ["--root_gen_dir", "gen", "--output_header", "h.h", "--output_cc", "c.cc"]
    [] ["gen", "--output_header", "h.h", "--output_cc", "c.cc"]).1.2 rfl (by decide)
  simpa using this

end DevToolsUIStrings
